import Mathlib

/-!
Shallow embedding of the TeleMedicineAIHelper client code:
the auth/session derivation (`src/hooks/useAuth.tsx`), the route guard
(`ProtectedRoute`), the route table (`src/App.tsx`) and the backend access
helpers (`src/config/supabase.ts`).  JavaScript string/number truthiness
(`undefined`, `""` and `0` are falsy) is made explicit through the
`strTruthy` / `truthyNat` helpers, and the JS `||` fallback operator through
`jsOr` / `jsOrO` / `jsOrNat`.
-/

namespace TeleMed

/-- JS truthiness of an optional string: `undefined` and `""` are falsy. -/
def strTruthy : Option String → Bool
  | none => false
  | some s => s != ""

/-- JS `a || b` on optional strings, keeping the result optional. -/
def jsOrO (a b : Option String) : Option String :=
  match a with
  | some s => if s = "" then b else some s
  | none => b

/-- JS `a || d` on an optional string with a plain default. -/
def jsOr (a : Option String) (d : String) : String :=
  match a with
  | some s => if s = "" then d else s
  | none => d

/-- JS truthiness of an optional number: `undefined` and `0` are falsy. -/
def truthyNat (o : Option Nat) : Bool :=
  o.getD 0 != 0

/-- JS `a || d` on an optional number (so `0` also falls back to `d`). -/
def jsOrNat (o : Option Nat) (d : Nat) : Nat :=
  if truthyNat o then o.getD 0 else d

/-- The `UserRole` enum of `src/config/supabase.ts`. -/
inductive UserRole where
  | patient
  | doctor
  | admin
  | nurse
deriving DecidableEq

/-- The `user_metadata` field of the remote auth identity. -/
structure UserMetadata where
  full_name : Option String := none
  avatar_url : Option String := none
  role : Option UserRole := none
deriving DecidableEq

/-- The `app_metadata` field of the remote auth identity. -/
structure AppMetadata where
  role : Option UserRole := none
deriving DecidableEq

/-- The `AuthUser` shape of `src/config/supabase.ts` (the remote auth
identity as the client sees it; `email` is optional at use sites). -/
structure AuthUser where
  id : String
  email : Option String := none
  user_metadata : UserMetadata := {}
  app_metadata : AppMetadata := {}
  created_at : Option String := none
deriving DecidableEq

/-- The profile row fields `useAuth.tsx` reads (1:1 with an auth identity). -/
structure Profile where
  full_name : Option String := none
  email : Option String := none
  role : Option UserRole := none
  avatar_url : Option String := none
  phone : Option String := none
  date_of_birth : Option String := none
  gender : Option String := none
  medical_license : Option String := none
  specialization : Option String := none
  department : Option String := none
  created_at : Option String := none
  updated_at : Option String := none
deriving DecidableEq

/-- The derived `User` view of `src/hooks/useAuth.tsx`. -/
structure User where
  id : String
  name : String
  email : String
  role : UserRole
  avatar : Option String := none
  phone : Option String := none
  dateOfBirth : Option String := none
  gender : Option String := none
  medicalLicense : Option String := none
  specialization : Option String := none
  department : Option String := none
  dateCreated : Option String := none
  lastActive : Option String := none
deriving DecidableEq

/-- The part of an email address before the first `@`: what taking element 0
of the JS split of the email at `@` yields. -/
def emailLocalPart (s : String) : String :=
  s.takeWhile (fun c => c ≠ '@')

/-- The derived user view built by `AuthProvider` in `src/hooks/useAuth.tsx`
(lines 51-65): each field is the JS `||` fallback chain of the source. -/
def deriveUser (supabaseUser : Option AuthUser) (profile : Option Profile) : Option User :=
  match supabaseUser with
  | none => none
  | some u => some {
      id := u.id
      name := jsOr (jsOrO (jsOrO (profile.bind Profile.full_name) u.user_metadata.full_name)
        (u.email.map emailLocalPart)) "User"
      email := jsOr (jsOrO (profile.bind Profile.email) u.email) ""
      role :=
        match profile.bind Profile.role with
        | some r => r
        | none =>
          match u.user_metadata.role with
          | some r => r
          | none => UserRole.patient
      avatar := jsOrO (profile.bind Profile.avatar_url) none
      phone := jsOrO (profile.bind Profile.phone) none
      dateOfBirth := jsOrO (profile.bind Profile.date_of_birth) none
      gender := jsOrO (profile.bind Profile.gender) none
      medicalLicense := jsOrO (profile.bind Profile.medical_license) none
      specialization := jsOrO (profile.bind Profile.specialization) none
      department := jsOrO (profile.bind Profile.department) none
      dateCreated := jsOrO (profile.bind Profile.created_at) u.created_at
      lastActive := jsOrO (profile.bind Profile.updated_at) none }

/-- The `isAuthenticated` flag of `AuthProvider` (line 68):
`!!supabaseUser && !!supabaseUser.id`. -/
def isAuthenticatedView (supabaseUser : Option AuthUser) : Bool :=
  match supabaseUser with
  | none => false
  | some u => u.id != ""

/-- The `getUserRole` helper of `src/config/supabase.ts` (lines 118-124):
`app_metadata.role || user_metadata.role || null`. -/
def getUserRole (user : Option AuthUser) : Option UserRole :=
  match user with
  | none => none
  | some u =>
    match u.app_metadata.role with
    | some r => some r
    | none => u.user_metadata.role

/-- What the route guard renders. -/
inductive RouteRender where
  | loadingSpinner
  | redirect (path : String)
  | outlet
deriving DecidableEq

/-- The `ProtectedRoute` component (appended to `src/hooks/useAuth.tsx`):
loading shows the spinner, otherwise no session redirects, otherwise the
protected children render through the outlet. -/
def ProtectedRoute (isAuthenticated : Bool) (loading : Bool := false)
    (redirectPath : String := "/login") : RouteRender :=
  if loading then RouteRender.loadingSpinner
  else if !isAuthenticated then RouteRender.redirect redirectPath
  else RouteRender.outlet

/-- The public route paths of `src/App.tsx` (the index route as `""`). -/
def publicRoutesList : List String :=
  ["", "login", "register", "auth/verify", "auth/confirm", "verify",
   "reset-password", "auth/reset-password"]

/-- The always-mounted children of the protected subtree in `src/App.tsx`. -/
def baseProtectedRoutes : List String :=
  ["dashboard", "appointments", "consultation/:id", "medical-records", "chat",
   "chat/:channelUrl", "chatbot", "prescriptions", "notifications", "profile"]

/-- The `isAdmin` flag of `src/App.tsx` (line 23): `user?.role === admin`. -/
def isAdminFlag (user : Option User) : Bool :=
  match user with
  | some v => v.role == UserRole.admin
  | none => false

/-- The children mounted under the protected route in `src/App.tsx`:
the base pages plus, when `isAdmin`, the `admin` route. -/
def protectedChildRoutes (user : Option User) : List String :=
  baseProtectedRoutes ++ (if isAdminFlag user then ["admin"] else [])

/-- What the `App` component renders. -/
inductive AppRender where
  | loadingScreen
  | router (publicRoutes : List String) (guard : RouteRender)
      (protectedRoutes : List String)
deriving DecidableEq

/-- The `App` component of `src/App.tsx`: the loading screen while loading,
otherwise the route table whose protected subtree sits behind
`ProtectedRoute isAuthenticated`. -/
def App (loading : Bool) (isAuthenticated : Bool) (user : Option User) : AppRender :=
  if loading then AppRender.loadingScreen
  else AppRender.router publicRoutesList (ProtectedRoute isAuthenticated)
    (protectedChildRoutes user)

/-- The error shape the remote client hands back on a failed call. -/
structure RemoteError where
  message : Option String := none
  code : Option String := none
deriving DecidableEq

/-- The `SupabaseError` class of `src/config/supabase.ts`: a message and an
optional code. -/
structure SupabaseError where
  message : String
  code : Option String := none
deriving DecidableEq

/-- The `handleSupabaseError` helper (lines 103-106): wraps the remote error
as a `SupabaseError`, defaulting an absent or empty message. -/
def handleSupabaseError (e : RemoteError) : SupabaseError :=
  { message := jsOr e.message "An unexpected error occurred", code := e.code }

/-- Outcome of one remote call: data, or the structured remote error
(the remote client returns null data alongside an error). -/
inductive RemoteResult (α : Type) where
  | ok (data : α)
  | err (e : RemoteError)

/-- The `createRecord` helper (lines 187-199): returns the inserted row or
raises through `handleSupabaseError`. -/
def createRecord {α : Type} (res : RemoteResult α) : Except SupabaseError α :=
  match res with
  | RemoteResult.ok d => Except.ok d
  | RemoteResult.err e => Except.error (handleSupabaseError e)

/-- The `updateRecord` helper (lines 201-215): returns the updated row or
raises through `handleSupabaseError`. -/
def updateRecord {α : Type} (res : RemoteResult α) : Except SupabaseError α :=
  match res with
  | RemoteResult.ok d => Except.ok d
  | RemoteResult.err e => Except.error (handleSupabaseError e)

/-- The `deleteRecord` helper (lines 217-224): unit on success or raises
through `handleSupabaseError`. -/
def deleteRecord (res : RemoteResult Unit) : Except SupabaseError Unit :=
  match res with
  | RemoteResult.ok d => Except.ok d
  | RemoteResult.err e => Except.error (handleSupabaseError e)

/-- The `getRecord` helper (lines 226-238): a single-row fetch.  An error
whose code is PGRST116 (no rows) is skipped and the null data is returned;
any other error raises through `handleSupabaseError`. -/
def getRecord {α : Type} (res : RemoteResult α) : Except SupabaseError (Option α) :=
  match res with
  | RemoteResult.ok d => Except.ok (some d)
  | RemoteResult.err e =>
    if e.code ≠ some "PGRST116" then Except.error (handleSupabaseError e)
    else Except.ok none

/-- The data the storage upload returns on success. -/
structure UploadData where
  path : String
deriving DecidableEq

/-- The `uploadFile` helper (lines 159-176): raises on a remote error,
otherwise returns the public URL of the stored path. -/
def uploadFile (publicUrlOf : String → String) (res : RemoteResult UploadData) :
    Except SupabaseError String :=
  match res with
  | RemoteResult.ok d => Except.ok (publicUrlOf d.path)
  | RemoteResult.err e => Except.error (handleSupabaseError e)

/-- The `deleteFile` helper (lines 178-184): unit on success or raises
through `handleSupabaseError`. -/
def deleteFile (res : RemoteResult Unit) : Except SupabaseError Unit :=
  match res with
  | RemoteResult.ok d => Except.ok d
  | RemoteResult.err e => Except.error (handleSupabaseError e)

/-- A database row, abstracted as named string-valued columns. -/
structure Row where
  fields : List (String × String)
deriving DecidableEq

/-- Value of a column of a row (none when the row has no such column). -/
def Row.col (r : Row) (k : String) : Option String :=
  (r.fields.find? (fun kv => kv.1 == k)).map (fun kv => kv.2)

/-- A total comparison on optional column values for ordering rows. -/
def optStrLe (a b : Option String) : Bool :=
  match a, b with
  | none, _ => true
  | some _, none => false
  | some x, some y => (compare x y).isLE

/-- Insert a row into a sorted list (insertion step of the sort). -/
def insertRow (le : Row → Row → Bool) (x : Row) : List Row → List Row
  | [] => [x]
  | y :: ys => if le x y then x :: y :: ys else y :: insertRow le x ys

/-- Deterministic sort of the rows by the given comparison. -/
def sortRowsBy (le : Row → Row → Bool) : List Row → List Row
  | [] => []
  | x :: xs => insertRow le x (sortRowsBy le xs)

/-- Row comparison on one column, ascending or descending. -/
def rowLe (c : String) (asc : Bool) (a b : Row) : Bool :=
  if asc then optStrLe (Row.col a c) (Row.col b c)
  else optStrLe (Row.col b c) (Row.col a c)

/-- Conjunction of the chained `.eq` column filters. -/
def applyFilters (filters : List (String × String)) (rows : List Row) : List Row :=
  rows.filter (fun r => filters.all (fun kv => Row.col r kv.1 == some kv.2))

/-- The ordering step of the query, when an order was requested. -/
def applyOrder (o : Option (String × Bool)) (rows : List Row) : List Row :=
  match o with
  | none => rows
  | some oc => sortRowsBy (rowLe oc.1 oc.2) rows

/-- The state the chained query builder accumulates: `.eq` filters, an
order, and the limit/offset parameters the request carries. -/
structure QueryBuilder where
  filters : List (String × String) := []
  order : Option (String × Bool) := none
  limitParam : Option Nat := none
  offsetParam : Nat := 0
deriving DecidableEq

/-- The `.eq(key, value)` builder step. -/
def QueryBuilder.eqFilter (qb : QueryBuilder) (k v : String) : QueryBuilder :=
  { qb with filters := qb.filters ++ [(k, v)] }

/-- The `.order(column, ascending)` builder step. -/
def QueryBuilder.orderBy (qb : QueryBuilder) (c : String) (asc : Bool) : QueryBuilder :=
  { qb with order := some (c, asc) }

/-- The `.limit(n)` builder step: sets the limit request parameter. -/
def QueryBuilder.limit (qb : QueryBuilder) (n : Nat) : QueryBuilder :=
  { qb with limitParam := some n }

/-- The `.range(from, to)` builder step: sets the offset parameter to `a`
and overwrites the limit parameter with the range length `b + 1 - a`,
as the remote client encodes a range request. -/
def QueryBuilder.range (qb : QueryBuilder) (a b : Nat) : QueryBuilder :=
  { qb with offsetParam := a, limitParam := some (b + 1 - a) }

/-- Server-side evaluation of a built query over a table: filter, order,
then apply offset and limit. -/
def QueryBuilder.run (qb : QueryBuilder) (rows : List Row) : List Row :=
  let fo := applyOrder qb.order (applyFilters qb.filters rows)
  let dropped := fo.drop qb.offsetParam
  match qb.limitParam with
  | none => dropped
  | some l => dropped.take l

/-- The order option of the `getRecords` query argument. -/
structure OrderOption where
  column : String
  ascending : Option Bool := none
deriving DecidableEq

/-- The optional query argument of `getRecords` (lines 240-248). -/
structure ListQuery where
  select : Option String := none
  filter : Option (List (String × String)) := none
  order : Option OrderOption := none
  limit : Option Nat := none
  offset : Option Nat := none
deriving DecidableEq

/-- The query `getRecords` (lines 250-270) builds: apply each filter entry,
the order (ascending defaulting to true), then `.limit` when the limit is
truthy, then `.range(offset, offset + (limit || 10) - 1)` when the offset is
truthy. -/
def getRecordsBuilder (query : Option ListQuery) : QueryBuilder :=
  let qb : QueryBuilder := {}
  let qb := match query.bind ListQuery.filter with
    | none => qb
    | some entries => entries.foldl (fun b kv => b.eqFilter kv.1 kv.2) qb
  let qb := match query.bind ListQuery.order with
    | none => qb
    | some o => qb.orderBy o.column (o.ascending.getD true)
  let qb := if truthyNat (query.bind ListQuery.limit) then
      qb.limit ((query.bind ListQuery.limit).getD 0)
    else qb
  let qb := if truthyNat (query.bind ListQuery.offset) then
      let off := (query.bind ListQuery.offset).getD 0
      qb.range off (off + jsOrNat (query.bind ListQuery.limit) 10 - 1)
    else qb
  qb

/-- The rows `getRecords` returns when the remote call succeeds: the built
query evaluated over the table. -/
def getRecords (tableRows : List Row) (query : Option ListQuery) : List Row :=
  (getRecordsBuilder query).run tableRows

/-- The filtered and ordered result set of a query, before any limit or
offset is applied. -/
def filteredOrdered (tableRows : List Row) (q : ListQuery) : List Row :=
  applyOrder (q.order.map (fun o => (o.column, o.ascending.getD true)))
    (applyFilters (q.filter.getD []) tableRows)

/-- How `getRecords` (lines 272-275) surfaces the remote outcome: the data,
or the raised `SupabaseError`. -/
def getRecordsResult (res : RemoteResult (List Row)) : Except SupabaseError (List Row) :=
  match res with
  | RemoteResult.ok d => Except.ok d
  | RemoteResult.err e => Except.error (handleSupabaseError e)

/-- A table-change subscription as `subscribeToTable` (lines 132-152)
creates it: a channel named after the table, listening to changes of that
table.  `uid` stands for the identity of the channel object the remote
client allocates. -/
structure Subscription where
  uid : Nat
  channelName : String
  table : String
  rowFilter : Option String := none
deriving DecidableEq

/-- Modelled from the spec: the realtime channel registry lives inside the
remote client SDK, not in the repository sources; per the spec it is a
push channel per subscription, delivering row-change events of the
subscribed table, released when the consumer unsubscribes. -/
structure RealtimeState where
  subs : List Subscription
deriving DecidableEq

/-- The `subscribeToTable` helper (lines 132-152): builds the channel named
`table_changes` for the table, registers it, and returns it. -/
def subscribeToTable (st : RealtimeState) (uid : Nat) (table : String)
    (rowFilter : Option String := none) : Subscription × RealtimeState :=
  let ch : Subscription :=
    { uid := uid, channelName := table ++ "_changes",
      table := table, rowFilter := rowFilter }
  (ch, { subs := st.subs ++ [ch] })

/-- The `unsubscribeFromChannel` helper (lines 154-156): removes the given
channel from the registry. -/
def unsubscribeFromChannel (st : RealtimeState) (ch : Subscription) : RealtimeState :=
  { subs := st.subs.filter (fun s => s ≠ ch) }

/-- A table-change event arriving from the remote change feed. -/
structure TableEvent where
  table : String
deriving DecidableEq

/-- Modelled from the spec: delivery of one table-change event invokes the
callback of every currently registered subscription on that table (the
optional row filter is ignored here, which only enlarges the set of
invoked callbacks). -/
def dispatch (st : RealtimeState) (ev : TableEvent) : List Subscription :=
  st.subs.filter (fun s => s.table == ev.table)

/-- The subscriptions whose callbacks fire across a sequence of events
delivered in the given registry state (delivery itself does not change the
registry). -/
def processEvents (st : RealtimeState) (evs : List TableEvent) : List Subscription :=
  (evs.map (dispatch st)).flatten

/-- Credentials a sign-in attempt carries. -/
structure Credentials where
  email : String
  password : String
deriving DecidableEq

/-- Outcome of the remote auth call for a sign-in attempt. -/
inductive AuthResponse where
  | ok (user : AuthUser)
  | err (e : RemoteError)
deriving DecidableEq

/-- The local auth state the session hook mirrors. -/
structure AuthState where
  session : Option AuthUser
deriving DecidableEq

/-- What `signIn` returns: a success flag and a human-readable message. -/
structure SignInResult where
  success : Bool
  message : String
deriving DecidableEq

/-- Modelled from the spec: `useSupabaseAuth.signIn` is not among the
provided sources.  Per the spec it delegates to remote auth, returns a
success flag and a human-readable message, does not retry, and updates the
session only on success.  The third component counts the remote auth calls
made (always one: no retry). -/
def signIn (remoteAuth : Credentials → AuthResponse) (st : AuthState)
    (c : Credentials) : SignInResult × AuthState × Nat :=
  match remoteAuth c with
  | AuthResponse.ok u =>
    ({ success := true, message := "Successfully signed in!" },
     { session := some u }, 1)
  | AuthResponse.err e =>
    ({ success := false, message := jsOr e.message "Sign in failed" }, st, 1)

theorem jsOrO_of_truthy (a b : Option String) (h : strTruthy a = true) :
    jsOrO a b = a := by
  cases a with
  | none => simp [strTruthy] at h
  | some s =>
    have hs : s ≠ "" := by simpa [strTruthy] using h
    simp [jsOrO, hs]

theorem jsOrO_of_falsy (a b : Option String) (h : strTruthy a = false) :
    jsOrO a b = b := by
  cases a with
  | none => rfl
  | some s =>
    have hs : s = "" := by simpa [strTruthy] using h
    simp [jsOrO, hs]

theorem jsOr_some_of_truthy (a : Option String) (d : String)
    (h : strTruthy a = true) : some (jsOr a d) = a := by
  cases a with
  | none => simp [strTruthy] at h
  | some s =>
    have hs : s ≠ "" := by simpa [strTruthy] using h
    simp [jsOr, hs]

theorem jsOr_of_falsy (a : Option String) (d : String)
    (h : strTruthy a = false) : jsOr a d = d := by
  cases a with
  | none => rfl
  | some s =>
    have hs : s = "" := by simpa [strTruthy] using h
    simp [jsOr, hs]

theorem jsOr_ne_empty (a : Option String) (d : String) (hd : d ≠ "") :
    jsOr a d ≠ "" := by
  cases a with
  | none => simpa [jsOr] using hd
  | some s =>
    by_cases hs : s = "" <;> simp [jsOr, hs, hd]

/-- Claim C2: the route guard renders the loading state whenever loading is
true regardless of the authentication value; with loading false and no
session present it redirects to the login path (the default redirect);
with loading false and a session present it renders the protected children
through the outlet. -/
theorem route_guard_states (isAuth : Bool) (path : String) :
    ProtectedRoute isAuth true path = RouteRender.loadingSpinner
    ∧ ProtectedRoute false false path = RouteRender.redirect path
    ∧ ProtectedRoute false = RouteRender.redirect "/login"
    ∧ ProtectedRoute true false path = RouteRender.outlet := by
  exact ⟨rfl, rfl, rfl, rfl⟩

/-- Claim C8: the admin route is mounted inside the protected subtree of
the rendered route table exactly when the derived user has role admin; an
authenticated user with any other role (or no derived user) mounts no
admin route, and the table sits behind the route guard. -/
theorem admin_route_gating (isAuth : Bool) (user : Option User) :
    ("admin" ∈ protectedChildRoutes user ↔ ∃ v, user = some v ∧ v.role = UserRole.admin)
    ∧ App false isAuth user =
        AppRender.router publicRoutesList (ProtectedRoute isAuth) (protectedChildRoutes user)
    ∧ App true isAuth user = AppRender.loadingScreen := by
  refine ⟨?_, rfl, rfl⟩
  have hbase : "admin" ∉ baseProtectedRoutes := by decide
  cases user with
  | none => simp [protectedChildRoutes, isAdminFlag, hbase]
  | some v =>
    by_cases h : v.role = UserRole.admin
    · simp [protectedChildRoutes, isAdminFlag, h]
    · simp [protectedChildRoutes, isAdminFlag, h, hbase]

/-- Claim C1 counterexample: an authenticated session whose remote identity
carries application-metadata role admin while the profile row carries role
doctor displays role doctor, so the derived view does not resolve the
application-metadata role first. -/
theorem role_precedence_cex :
    (deriveUser
        (some { id := "u1", email := some "pat@example.com",
                app_metadata := { role := some UserRole.admin } })
        (some { role := some UserRole.doctor })).map User.role
      = some UserRole.doctor
    ∧ UserRole.doctor ≠ UserRole.admin := by
  exact ⟨rfl, by decide⟩

/-- Claim C1 amended: the derived user view resolves the displayed role as
the profile role first, then the user-metadata role, then the default
patient; application metadata is not consulted by the view, only by the
standalone getUserRole helper, which checks application metadata first,
then user metadata, then null. -/
theorem role_precedence_amended (u : AuthUser) (p : Option Profile) :
    (∀ r, p.bind Profile.role = some r →
        (deriveUser (some u) p).map User.role = some r)
    ∧ (p.bind Profile.role = none → ∀ r, u.user_metadata.role = some r →
        (deriveUser (some u) p).map User.role = some r)
    ∧ (p.bind Profile.role = none → u.user_metadata.role = none →
        (deriveUser (some u) p).map User.role = some UserRole.patient)
    ∧ (∀ r, u.app_metadata.role = some r → getUserRole (some u) = some r)
    ∧ (u.app_metadata.role = none → getUserRole (some u) = u.user_metadata.role) := by
  refine ⟨?_, ?_, ?_, ?_, ?_⟩
  · intro r h; simp [deriveUser, h]
  · intro h r h2; simp [deriveUser, h, h2]
  · intro h h2; simp [deriveUser, h, h2]
  · intro r h; simp [getUserRole, h]
  · intro h; simp [getUserRole, h]

/-- Claim C6: every backend-access helper surfaces a remote failure as the
structured error shape: the remote message, or the fixed default when the
message is absent or empty, plus the optional code, with no further
classification. -/
theorem helpers_error_shape (e : RemoteError) (pub : String → String) :
    createRecord (RemoteResult.err e : RemoteResult Row)
      = Except.error { message := jsOr e.message "An unexpected error occurred", code := e.code }
    ∧ updateRecord (RemoteResult.err e : RemoteResult Row)
      = Except.error { message := jsOr e.message "An unexpected error occurred", code := e.code }
    ∧ deleteRecord (RemoteResult.err e)
      = Except.error { message := jsOr e.message "An unexpected error occurred", code := e.code }
    ∧ getRecordsResult (RemoteResult.err e)
      = Except.error { message := jsOr e.message "An unexpected error occurred", code := e.code }
    ∧ uploadFile pub (RemoteResult.err e)
      = Except.error { message := jsOr e.message "An unexpected error occurred", code := e.code }
    ∧ deleteFile (RemoteResult.err e)
      = Except.error { message := jsOr e.message "An unexpected error occurred", code := e.code }
    ∧ (∀ s, e.message = some s → s ≠ "" → (handleSupabaseError e).message = s)
    ∧ (e.message = none → (handleSupabaseError e).message = "An unexpected error occurred") := by
  refine ⟨rfl, rfl, rfl, rfl, rfl, rfl, ?_, ?_⟩
  · intro s hs hne
    simp [handleSupabaseError, hs, jsOr, hne]
  · intro hs
    simp [handleSupabaseError, hs, jsOr]

/-- Claim C7: once a table-change subscription is removed through
unsubscribeFromChannel, no subsequent table-change event delivered in the
resulting registry state invokes that subscription callback again. -/
theorem unsubscribe_halts (st : RealtimeState) (ch : Subscription)
    (evs : List TableEvent) :
    ch ∉ processEvents (unsubscribeFromChannel st ch) evs := by
  intro hmem
  simp only [processEvents, List.mem_flatten, List.mem_map] at hmem
  obtain ⟨l, ⟨ev, hev, rfl⟩, hch⟩ := hmem
  simp [dispatch, unsubscribeFromChannel, List.mem_filter] at hch

/-- Claim C10: the derived user view is total in its fallbacks.  The
display name falls back from the profile full name to the auth metadata
full name, then to the part of the email before the at sign, then to the
literal User; the email falls back from the profile email to the auth
email, then to the empty string; the view exists for every auth user; and
isAuthenticated is true exactly when an auth user with a non-empty id
exists, independent of the profile row. -/
theorem derived_user_totality (u : AuthUser) (p : Option Profile) :
    (strTruthy (p.bind Profile.full_name) = true →
        (deriveUser (some u) p).map User.name = p.bind Profile.full_name)
    ∧ (strTruthy (p.bind Profile.full_name) = false →
        strTruthy u.user_metadata.full_name = true →
        (deriveUser (some u) p).map User.name = u.user_metadata.full_name)
    ∧ (strTruthy (p.bind Profile.full_name) = false →
        strTruthy u.user_metadata.full_name = false →
        strTruthy (u.email.map emailLocalPart) = true →
        (deriveUser (some u) p).map User.name = u.email.map emailLocalPart)
    ∧ (strTruthy (p.bind Profile.full_name) = false →
        strTruthy u.user_metadata.full_name = false →
        strTruthy (u.email.map emailLocalPart) = false →
        (deriveUser (some u) p).map User.name = some "User")
    ∧ (strTruthy (p.bind Profile.email) = true →
        (deriveUser (some u) p).map User.email = p.bind Profile.email)
    ∧ (strTruthy (p.bind Profile.email) = false → strTruthy u.email = true →
        (deriveUser (some u) p).map User.email = u.email)
    ∧ (strTruthy (p.bind Profile.email) = false → strTruthy u.email = false →
        (deriveUser (some u) p).map User.email = some "")
    ∧ (deriveUser (some u) p).isSome = true
    ∧ (isAuthenticatedView (some u) = true ↔ u.id ≠ "") := by
  refine ⟨?_, ?_, ?_, ?_, ?_, ?_, ?_, ?_, ?_⟩
  · intro h1
    simp only [deriveUser, Option.map_some']
    rw [jsOrO_of_truthy _ _ h1, jsOrO_of_truthy _ _ h1, jsOr_some_of_truthy _ _ h1]
  · intro h1 h2
    simp only [deriveUser, Option.map_some']
    rw [jsOrO_of_falsy _ _ h1, jsOrO_of_truthy _ _ h2, jsOr_some_of_truthy _ _ h2]
  · intro h1 h2 h3
    simp only [deriveUser, Option.map_some']
    rw [jsOrO_of_falsy _ _ h1, jsOrO_of_falsy _ _ h2, jsOr_some_of_truthy _ _ h3]
  · intro h1 h2 h3
    simp only [deriveUser, Option.map_some']
    rw [jsOrO_of_falsy _ _ h1, jsOrO_of_falsy _ _ h2, jsOr_of_falsy _ _ h3]
  · intro h1
    simp only [deriveUser, Option.map_some']
    rw [jsOrO_of_truthy _ _ h1, jsOr_some_of_truthy _ _ h1]
  · intro h1 h2
    simp only [deriveUser, Option.map_some']
    rw [jsOrO_of_falsy _ _ h1, jsOr_some_of_truthy _ _ h2]
  · intro h1 h2
    simp only [deriveUser, Option.map_some']
    rw [jsOrO_of_falsy _ _ h1, jsOr_of_falsy _ _ h2]
  · simp [deriveUser]
  · simp [isAuthenticatedView]

/-- Claim C5: a sign-in attempt the remote auth rejects returns success
false with a non-empty human-readable message, makes exactly one remote
call (no retry), and leaves the session null, so the derived state stays
unauthenticated. -/
theorem signIn_invalid_credentials (remoteAuth : Credentials → AuthResponse)
    (st : AuthState) (c : Credentials) (e : RemoteError)
    (hres : remoteAuth c = AuthResponse.err e) (hs : st.session = none) :
    (signIn remoteAuth st c).1.success = false
    ∧ (signIn remoteAuth st c).1.message ≠ ""
    ∧ (signIn remoteAuth st c).2.1.session = none
    ∧ isAuthenticatedView (signIn remoteAuth st c).2.1.session = false
    ∧ (signIn remoteAuth st c).2.2 = 1 := by
  have hmsg : jsOr e.message "Sign in failed" ≠ "" :=
    jsOr_ne_empty e.message "Sign in failed" (by decide)
  refine ⟨?_, ?_, ?_, ?_, ?_⟩ <;>
    simp [signIn, hres, hs, isAuthenticatedView, hmsg]

/-- Concrete instantiation of the invalid-credentials sign-in theorem. -/
theorem signIn_invalid_credentials_witness :
    (signIn (fun _ => AuthResponse.err { message := some "Invalid login credentials" })
        { session := none } { email := "user@example.com", password := "wrong" }).1.success = false
    ∧ (signIn (fun _ => AuthResponse.err { message := some "Invalid login credentials" })
        { session := none } { email := "user@example.com", password := "wrong" }).1.message ≠ ""
    ∧ (signIn (fun _ => AuthResponse.err { message := some "Invalid login credentials" })
        { session := none } { email := "user@example.com", password := "wrong" }).2.1.session = none
    ∧ isAuthenticatedView (signIn (fun _ => AuthResponse.err { message := some "Invalid login credentials" })
        { session := none } { email := "user@example.com", password := "wrong" }).2.1.session = false
    ∧ (signIn (fun _ => AuthResponse.err { message := some "Invalid login credentials" })
        { session := none } { email := "user@example.com", password := "wrong" }).2.2 = 1 :=
  signIn_invalid_credentials
    (fun _ => AuthResponse.err { message := some "Invalid login credentials" })
    { session := none } { email := "user@example.com", password := "wrong" }
    { message := some "Invalid login credentials" } rfl rfl

/-- Claim C4: a single-row fetch whose remote outcome is the no-rows error
code PGRST116 is not surfaced as an error: getRecord returns null, while a
remote error with any other code raises the structured error, and a found
row is returned. -/
theorem getRecord_not_found (m : Option String) (e : RemoteError)
    (he : e.code ≠ some "PGRST116") :
    getRecord (RemoteResult.err { message := m, code := some "PGRST116" } : RemoteResult Row)
        = Except.ok none
    ∧ getRecord (RemoteResult.err e : RemoteResult Row)
        = Except.error (handleSupabaseError e)
    ∧ (∀ d : Row, getRecord (RemoteResult.ok d) = Except.ok (some d)) := by
  refine ⟨?_, ?_, ?_⟩
  · simp [getRecord]
  · simp [getRecord, he]
  · intro d; rfl

/-- Concrete instantiation of the single-row fetch theorem. -/
theorem getRecord_not_found_witness :
    getRecord (RemoteResult.err { message := some "No rows", code := some "PGRST116" } : RemoteResult Row)
        = Except.ok none
    ∧ getRecord (RemoteResult.err { message := some "boom", code := some "PGRST301" } : RemoteResult Row)
        = Except.error (handleSupabaseError { message := some "boom", code := some "PGRST301" })
    ∧ (∀ d : Row, getRecord (RemoteResult.ok d) = Except.ok (some d)) :=
  getRecord_not_found (some "No rows")
    { message := some "boom", code := some "PGRST301" } (by decide)

theorem foldl_eqFilter (entries : List (String × String)) (qb : QueryBuilder) :
    entries.foldl (fun b kv => b.eqFilter kv.1 kv.2) qb
      = { qb with filters := qb.filters ++ entries } := by
  induction entries generalizing qb with
  | nil => simp
  | cons kv rest ih =>
    rw [List.foldl_cons, ih]
    simp [QueryBuilder.eqFilter]

theorem getRecordsBuilder_eq (q : ListQuery) :
    getRecordsBuilder (some q) =
      { filters := q.filter.getD [],
        order := q.order.map (fun o => (o.column, o.ascending.getD true)),
        limitParam :=
          if truthyNat q.offset then
            some (q.offset.getD 0 + jsOrNat q.limit 10 - 1 + 1 - q.offset.getD 0)
          else if truthyNat q.limit then some (q.limit.getD 0) else none,
        offsetParam := q.offset.getD 0 } := by
  have hoff0 : truthyNat q.offset = false → q.offset.getD 0 = 0 := by
    intro h
    simpa [truthyNat] using h
  cases hfil : q.filter <;> cases hord : q.order <;>
    cases hl : truthyNat q.limit <;> cases ho : truthyNat q.offset <;>
      simp [getRecordsBuilder, hfil, hord, hl, ho, foldl_eqFilter,
        QueryBuilder.orderBy, QueryBuilder.limit,
        QueryBuilder.range, hoff0, Option.bind]

/-- Claim C3: a getRecords call carrying a positive limit and an offset
returns exactly the contiguous slice of the filtered and ordered result
set at positions offset through offset + limit - 1 (drop offset, take
limit), so consecutive pages neither overlap nor skip rows. -/
theorem getRecords_slice (rows : List Row) (q : ListQuery) (L O : Nat)
    (hL : 1 ≤ L) (hlim : q.limit = some L) (hoff : q.offset = some O) :
    getRecords rows (some q) = ((filteredOrdered rows q).drop O).take L := by
  have hLne : L ≠ 0 := by omega
  rw [getRecords, getRecordsBuilder_eq]
  by_cases hO : O = 0
  · subst hO
    simp [QueryBuilder.run, truthyNat, jsOrNat, hlim, hoff, hLne, filteredOrdered]
  · have harith : O + L - 1 + 1 - O = L := by omega
    simp [QueryBuilder.run, truthyNat, jsOrNat, hlim, hoff, hLne, hO, harith,
      filteredOrdered]

/-- Concrete instantiation of the pagination slice theorem. -/
theorem getRecords_slice_witness :
    getRecords
        [{ fields := [("id", "1")] }, { fields := [("id", "2")] },
         { fields := [("id", "3")] }]
        (some { limit := some 2, offset := some 1 })
      = ((filteredOrdered
            [{ fields := [("id", "1")] }, { fields := [("id", "2")] },
             { fields := [("id", "3")] }]
            { limit := some 2, offset := some 1 }).drop 1).take 2 :=
  getRecords_slice _ _ 2 1 (by decide) rfl rfl

/-- Claim C9: getRecords treats a limit of 0 and an offset of 0 as absent
options, and a non-zero offset without a limit requests the implicit page
of ten rows starting at the offset. -/
theorem getRecords_defaults (rows : List Row) (q : ListQuery) (O : Nat)
    (hO : O ≠ 0) :
    getRecords rows (some { q with limit := some 0 })
        = getRecords rows (some { q with limit := none })
    ∧ getRecords rows (some { q with offset := some 0 })
        = getRecords rows (some { q with offset := none })
    ∧ getRecords rows (some { q with limit := none, offset := some O })
        = ((filteredOrdered rows q).drop O).take 10 := by
  refine ⟨?_, ?_, ?_⟩
  · rw [getRecords, getRecords, getRecordsBuilder_eq, getRecordsBuilder_eq]
    simp [truthyNat, jsOrNat]
  · rw [getRecords, getRecords, getRecordsBuilder_eq, getRecordsBuilder_eq]
    simp [truthyNat]
  · rw [getRecords, getRecordsBuilder_eq]
    have harith : O + 9 + 1 - O = 10 := by omega
    simp [QueryBuilder.run, harith, filteredOrdered, jsOrNat, truthyNat, hO]

/-- Concrete instantiation of the zero-as-absent and implicit-page
theorem. -/
theorem getRecords_defaults_witness :
    getRecords [{ fields := [("id", "1")] }] (some { limit := some 0 })
        = getRecords [{ fields := [("id", "1")] }] (some { limit := none })
    ∧ getRecords [{ fields := [("id", "1")] }] (some { offset := some 0 })
        = getRecords [{ fields := [("id", "1")] }] (some { offset := none })
    ∧ getRecords [{ fields := [("id", "1")] }] (some { limit := none, offset := some 1 })
        = ((filteredOrdered [{ fields := [("id", "1")] }] {}).drop 1).take 10 :=
  getRecords_defaults [{ fields := [("id", "1")] }] {} 1 (by decide)

end TeleMed
